import Mathlib

/-! ECR: job records and the redis-backed job store.

A shallow embedding of `src/ecr/job/job.c`, `src/ecr/redis/redis_client.c` and
`src/ecr/base/helpers.h`.

Conventions of the embedding.

* A C function that can stop abnormally returns a `Result`: a normal return, a
  failed `assert(...)` (`abort`; assertions are taken to be compiled in), the
  dereference of a NULL pointer (`segfault`), or the release of a block that
  has been released before (`double_free`).
* A nullable `char *` is an `Option String`; a nullable pointer to a record is an
  `Option` of the record. Strings are sequences of characters without an
  embedded NUL, `strlen` is their length.
* `malloc`, `strdup` and the libraries' allocations always succeed. Release of
  memory is modelled as far as it stops a call: `cJSON_Delete` on a node of a
  tree that has been deleted already is a repeated release. A released record
  keeps its contents (`redisFree` closes the connection, which the pointer
  variable `ctx` does not notice), and leaks are not modelled.
* The cJSON and hiredis libraries and the redis server are outside the
  repository. Their text functions (`cJSON_Parse`, `cJSON_Print`), the connect
  calls and the constants whose definitions are not among the sources are
  fields of an environment `Env`; theorems quantify over it. A reference
  environment `refEnv` with a small reference implementation of the libraries
  is used for concrete evaluations.
-/

namespace ECR

/-! ## Results of C functions -/

/-- Outcome of running a C function: `ret a` is a normal return of `a`, `abort` a
failed `assert`, `segfault` the dereference of a NULL pointer, `double_free` the
release of a block that has been released before (the allocator stops the
process; the call does not return). -/
inductive Result (α : Type) where
  | ret (a : α)
  | abort
  | segfault
  | double_free
deriving DecidableEq, Repr

/-- Sequencing of two steps: the second runs only when the first returned. -/
def Result.bind {α β : Type} (r : Result α) (f : α → Result β) : Result β :=
  match r with
  | .ret a => f a
  | .abort => .abort
  | .segfault => .segfault
  | .double_free => .double_free

instance : Monad Result where
  pure := Result.ret
  bind := Result.bind

/-- The statement `assert(p)`. -/
def c_assert (p : Bool) : Result Unit :=
  if p then .ret () else .abort

/-- Dereference of a pointer: NULL faults. -/
def deref {α : Type} (p : Option α) : Result α :=
  match p with
  | some a => .ret a
  | none => .segfault

/-! ## helpers.h -/

/-- The duplicate of `helpers.h`: NULL for NULL, otherwise a copy of the string
(the length guard `len >= (size_t)-1` cannot trigger and allocation succeeds). -/
def strdup (str : Option String) : Option String :=
  match str with
  | none => none
  | some s => some s

/-- Modelled from the spec: `ecr_strdup` is called by `redis_client.c` and defined
in none of the sources; the spec describes these calls as copying the string, so
it is the duplicate of `helpers.h` under its prefixed name. -/
def ecr_strdup (str : Option String) : Option String :=
  strdup str

/-- The C library's `strlen`: faults on NULL. -/
def strlen (str : Option String) : Result Nat :=
  (deref str).bind fun s => .ret s.length

/-! ## cJSON nodes (external library) -/

/-- A cJSON tree. Of a number only the integer view `valueint` is kept, the only
one the sources read. The children of an object carry their member names. -/
inductive cJSON where
  | cJSON_NULL
  | cJSON_False
  | cJSON_True
  | cJSON_Number (valueint : Int)
  | cJSON_String (valuestring : String)
  | cJSON_Array (items : List cJSON)
  | cJSON_Object (members : List (String × cJSON))
deriving Repr

/-- Field `valuestring` of a node: NULL unless the node is a string. -/
def cJSON.valuestring : cJSON → Option String
  | .cJSON_String s => some s
  | _ => none

/-- Field `valueint` of a node as the library's parser leaves it: the integer
value of a number, 1 on the literal `true`, 0 elsewhere. -/
def cJSON.valueint : cJSON → Int
  | .cJSON_Number n => n
  | .cJSON_True => 1
  | _ => 0

/-- The children of a node that carry a member name. -/
def cJSON.members : cJSON → List (String × cJSON)
  | .cJSON_Object ms => ms
  | _ => []

/-- The library's `tolower` applied to every character. -/
def lower (s : String) : String :=
  String.mk (s.data.map Char.toLower)

/-- Library function `cJSON_GetObjectItemCaseSensitive`: the first child whose
name is `name`, NULL when there is none or the object is NULL. -/
def cJSON_GetObjectItemCaseSensitive (object : Option cJSON) (name : String) : Option cJSON :=
  match object with
  | none => none
  | some o => (o.members.find? fun m => m.1 == name).map Prod.snd

/-- Library function `cJSON_GetObjectItem`: as above, names compared without
regard to case. -/
def cJSON_GetObjectItem (object : Option cJSON) (name : String) : Option cJSON :=
  match object with
  | none => none
  | some o => (o.members.find? fun m => lower m.1 == lower name).map Prod.snd

/-- Library function `cJSON_CreateString`: NULL for a NULL string. -/
def cJSON_CreateString (s : Option String) : Option cJSON :=
  s.map cJSON.cJSON_String

/-- Library function `cJSON_CreateNumber`, on an argument in the range of `int`. -/
def cJSON_CreateNumber (n : Int) : Option cJSON :=
  some (cJSON.cJSON_Number n)

/-- Library function `cJSON_CreateObject`. -/
def cJSON_CreateObject : Option cJSON :=
  some (cJSON.cJSON_Object [])

/-- Library function `cJSON_AddItemToObject`: appends `item` under `name` as the
last child; does nothing when the object or the item is NULL (the sources call
it on objects only). -/
def cJSON_AddItemToObject (object : Option cJSON) (name : String) (item : Option cJSON) :
    Option cJSON :=
  match object, item with
  | some (.cJSON_Object ms), some i => some (.cJSON_Object (ms ++ [(name, i)]))
  | o, _ => o

/-- Library function `cJSON_Delete(item)`: releases the node and all its
children; a NULL item is left alone. `released` tells that the node lies in a
tree on which `cJSON_Delete` has been called before: its block is then released
a second time. -/
def cJSON_Delete (item : Option cJSON) (released : Bool) : Result Unit :=
  match item with
  | none => .ret ()
  | some _ => if released then .double_free else .ret ()

/-! ## Records of the repository -/

/-- Record `ecr_job_data`; the enumeration `language` is its integer code. -/
structure ecr_job_data where
  content : Option String
  is_command : Bool
  lang : Int
deriving DecidableEq, Repr

/-- Record `ecr_job`. The pointer `data` is never NULL on the paths of the
sources (it comes from `ecr_job_data_new` or is asserted). -/
structure ecr_job where
  id : Option String
  description : Option String
  data : ecr_job_data
deriving DecidableEq, Repr

/-- Record `status_info`: a numeric code and a message. -/
structure status_info where
  code : Int
  message : Option String
deriving DecidableEq, Repr

/-- Modelled from the spec: `ecr_job_data_new` (job_data.c is not among the
sources) "owns a copy of `content`" and keeps the flag and the language tag. -/
def ecr_job_data_new (content : Option String) (is_command : Bool) (lang : Int) : ecr_job_data :=
  { content := strdup content, is_command := is_command, lang := lang }

/-- Modelled from the spec: `ecr_job_data_tojson` (job_data.c is not among the
sources) "produces a structured-text node with fields `content`, `is_command`
(encoded as 0/1), `lang` (encoded as its integer code)". -/
def ecr_job_data_tojson (job_data : ecr_job_data) : Option cJSON :=
  let json := cJSON_CreateObject
  let json := cJSON_AddItemToObject json "content" (cJSON_CreateString (strdup job_data.content))
  let json := cJSON_AddItemToObject json "is_command"
    (cJSON_CreateNumber (if job_data.is_command then 1 else 0))
  cJSON_AddItemToObject json "lang" (cJSON_CreateNumber job_data.lang)

/-! ## The environment: libraries and constants outside the sources -/

/-- Record `redisContext` of hiredis: the two fields the sources read. -/
structure redisContext where
  err : Int
  errstr : String
deriving DecidableEq, Repr

/-- What the sources use and do not define. -/
structure Env where
  /-- Constant `ECR_REDIS_JOB_PREFIX`. -/
  ECR_REDIS_JOB_PREFIX : String
  /-- Constant `REDIS_STATUS_SUCCESS`. -/
  REDIS_STATUS_SUCCESS : Int
  /-- Function `status_info_new()` (status.c is not among the sources): the fresh record, or NULL. -/
  status_info_new : Option status_info
  /-- Library function `cJSON_Parse`: NULL when the text is rejected. -/
  cJSON_Parse : Option String → Option cJSON
  /-- Library function `cJSON_Print`. -/
  cJSON_Print : cJSON → String
  /-- Library function `redisConnectWithTimeout(hostname, port, timeout)`. -/
  redisConnectWithTimeout : String → Int → Option redisContext
  /-- Library function `redisConnectUnixWithTimeout(hostname, timeout)`. -/
  redisConnectUnixWithTimeout : String → Option redisContext

/-! ## job.c -/

/-- Function `ecr_job_new`: copies `id` and `description`, keeps `job_data`. -/
def ecr_job_new (id description : Option String) (job_data : ecr_job_data) : ecr_job :=
  { id := strdup id, description := strdup description, data := job_data }

/-- Function `ecr_job_parse` of job.c. -/
def ecr_job_parse (E : Env) (job_str : Option String) : Result (Option ecr_job) := do
  c_assert job_str.isSome
  let job_json := E.cJSON_Parse job_str
  c_assert job_json.isSome
  let id_item ← deref (cJSON_GetObjectItemCaseSensitive job_json "id")
  let id := strdup id_item.valuestring
  let description_item ← deref (cJSON_GetObjectItemCaseSensitive job_json "description")
  let description := strdup description_item.valuestring
  let job_data_json := cJSON_GetObjectItem job_json "data"
  let content_item ← deref (cJSON_GetObjectItemCaseSensitive job_data_json "content")
  let is_command_item ← deref (cJSON_GetObjectItemCaseSensitive job_data_json "is_command")
  let lang_item ← deref (cJSON_GetObjectItemCaseSensitive job_data_json "lang")
  let job_data := ecr_job_data_new (strdup content_item.valuestring)
    (decide (is_command_item.valueint ≠ 0)) lang_item.valueint
  let job := ecr_job_new id description job_data
  cJSON_Delete job_json false
  -- `job_data_json` is a child of `job_json`, released with it by the line above
  cJSON_Delete job_data_json true
  return some job

/-- Function `ecr_job_tojson` of job.c. -/
def ecr_job_tojson (job : Option ecr_job) : Result (Option cJSON) := do
  c_assert job.isSome
  let j ← deref job
  let json := cJSON_CreateObject
  c_assert json.isSome
  let id := cJSON_CreateString (strdup j.id)
  let description := cJSON_CreateString (strdup j.description)
  let job_data := ecr_job_data_tojson j.data
  let json := cJSON_AddItemToObject json "id" id
  let json := cJSON_AddItemToObject json "description" description
  let json := cJSON_AddItemToObject json "data" job_data
  return json

/-- Function `ecr_job_tostring` of job.c. -/
def ecr_job_tostring (E : Env) (job : Option ecr_job) : Result (Option String) := do
  let json ← ecr_job_tojson job
  let node ← deref json
  let as_string := strdup (some (E.cJSON_Print node))
  return as_string

/-! ## Reference implementation of the cJSON text functions

A small executable rendering of the two library functions, used where a
concrete library is needed. `ref_cJSON_Print` follows the library's formatted
printer (`cJSON_Print` prints with tabs and newlines; the compact printer is the
separate `cJSON_PrintUnformatted`, which the sources do not call).
`ref_cJSON_Parse` accepts integer literals only and leaves `\u` escapes of
surrogate pairs out; like `cJSON_Parse` it ignores text after the value. -/

/-- One lower-case hexadecimal digit. -/
def hex_digit (n : Nat) : Char :=
  if n < 10 then Char.ofNat (48 + n) else Char.ofNat (87 + n)

/-- A character inside a printed string, escaped as the library does. -/
def print_char (c : Char) : List Char :=
  if c = '\"' then ['\\', '\"']
  else if c = '\\' then ['\\', '\\']
  else if c = '\x08' then ['\\', 'b']
  else if c = '\x0c' then ['\\', 'f']
  else if c = '\n' then ['\\', 'n']
  else if c = '\r' then ['\\', 'r']
  else if c = '\t' then ['\\', 't']
  else if c.toNat < 32 then ['\\', 'u', '0', '0', hex_digit (c.toNat / 16), hex_digit (c.toNat % 16)]
  else [c]

/-- A string between quotes. -/
def print_string (s : String) : List Char :=
  '\"' :: (s.data.flatMap print_char ++ ['\"'])

/-- A number, printed from its integer view. -/
def print_number (n : Int) : List Char :=
  if n < 0 then '-' :: Nat.toDigits 10 n.natAbs else Nat.toDigits 10 n.toNat

/-- The indentation at a nesting depth. -/
def tabs (depth : Nat) : List Char :=
  List.replicate depth '\t'

mutual
/-- The formatted text of a node at a nesting depth. -/
def print_value (depth : Nat) : cJSON → List Char
  | .cJSON_NULL => "null".data
  | .cJSON_False => "false".data
  | .cJSON_True => "true".data
  | .cJSON_Number n => print_number n
  | .cJSON_String s => print_string s
  | .cJSON_Array items => '[' :: (print_items (depth + 1) items ++ [']'])
  | .cJSON_Object ms => '{' :: '\n' :: (print_members (depth + 1) ms ++ tabs depth ++ ['}'])
/-- The items of an array, separated by a comma and a blank. -/
def print_items (depth : Nat) : List cJSON → List Char
  | [] => []
  | [v] => print_value depth v
  | v :: w :: rest => print_value depth v ++ [',', ' '] ++ print_items depth (w :: rest)
/-- The members of an object, one a line. -/
def print_members (depth : Nat) : List (String × cJSON) → List Char
  | [] => []
  | [(k, v)] => tabs depth ++ print_string k ++ [':', '\t'] ++ print_value depth v ++ ['\n']
  | (k, v) :: m :: rest =>
    tabs depth ++ print_string k ++ [':', '\t'] ++ print_value depth v ++ [',', '\n']
      ++ print_members depth (m :: rest)
end

/-- Reference `cJSON_Print`. -/
def ref_cJSON_Print (item : cJSON) : String :=
  String.mk (print_value 0 item)

/-- Skips the characters the library treats as blank (codes up to 32). -/
def skip_whitespace : List Char → List Char
  | [] => []
  | c :: cs => if c.toNat ≤ 32 then skip_whitespace cs else c :: cs

/-- Value of a hexadecimal digit. -/
def hex_value (c : Char) : Option Nat :=
  if '0' ≤ c ∧ c ≤ '9' then some (c.toNat - 48)
  else if 'a' ≤ c ∧ c ≤ 'f' then some (c.toNat - 87)
  else if 'A' ≤ c ∧ c ≤ 'F' then some (c.toNat - 55)
  else none

/-- The character of a `\uXXXX` escape outside the surrogate range. -/
def parse_hex4 (a b c d : Char) : Option Char :=
  match hex_value a, hex_value b, hex_value c, hex_value d with
  | some x, some y, some z, some w =>
    let n := ((x * 16 + y) * 16 + z) * 16 + w
    if n = 0 ∨ (0xD800 ≤ n ∧ n ≤ 0xDFFF) then none else some (Char.ofNat n)
  | _, _, _, _ => none

/-- Where the reader of a string stands: in plain text, right after a
backslash, or inside the four digits of a `\u` escape. -/
inductive string_state where
  | plain
  | escaped
  | hex (digits : List Char)

/-- The character of a one-letter escape. -/
def parse_escape (e : Char) : Option Char :=
  if e = 'b' then some '\x08' else if e = 'f' then some '\x0c'
  else if e = 'n' then some '\n' else if e = 'r' then some '\r'
  else if e = 't' then some '\t'
  else if e = '\"' ∨ e = '\\' ∨ e = '/' then some e else none

/-- The text of a string after its opening quote, up to the closing quote;
`acc` holds the characters read so far, last first. -/
def parse_string : List Char → string_state → List Char → Option (String × List Char)
  | [], _, _ => none
  | c :: cs, .plain, acc =>
    if c = '\"' then some (String.mk acc.reverse, cs)
    else if c = '\\' then parse_string cs .escaped acc
    else parse_string cs .plain (c :: acc)
  | c :: cs, .escaped, acc =>
    if c = 'u' then parse_string cs (.hex []) acc
    else
      match parse_escape c with
      | some ch => parse_string cs .plain (ch :: acc)
      | none => none
  | c :: cs, .hex [x, y, z], acc =>
    match parse_hex4 x y z c with
    | some ch => parse_string cs .plain (ch :: acc)
    | none => none
  | c :: cs, .hex ds, acc => parse_string cs (.hex (ds ++ [c])) acc

/-- The digits at the head of the input and their value, most significant first. -/
def parse_digits : List Char → Nat → Nat × List Char
  | [], n => (n, [])
  | c :: cs, n => if c.isDigit then parse_digits cs (n * 10 + (c.toNat - 48)) else (n, c :: cs)

/-- The `int` a number saturates to. -/
def saturate (n : Int) : Int :=
  if n ≥ 2147483647 then 2147483647 else if n ≤ -2147483648 then -2147483648 else n

/-- An integer literal; a fraction or an exponent is not accepted. -/
def parse_number (input : List Char) : Option (cJSON × List Char) :=
  let (neg, body) := match input with
    | '-' :: cs => (true, cs)
    | cs => (false, cs)
  match body with
  | [] => none
  | c :: _ =>
    if c.isDigit then
      let (n, rest) := parse_digits body 0
      match rest with
      | d :: _ =>
        if d = '.' ∨ d = 'e' ∨ d = 'E' ∨ d = '+' ∨ d = '-' then none
        else some (.cJSON_Number (saturate (if neg then -(n : Int) else n)), rest)
      | [] => some (.cJSON_Number (saturate (if neg then -(n : Int) else n)), rest)
    else none

mutual
/-- A value at the head of the input (no leading blanks), with the rest of the input. -/
def parse_value : Nat → List Char → Option (cJSON × List Char)
  | 0, _ => none
  | fuel + 1, input =>
    match input with
    | 'n' :: 'u' :: 'l' :: 'l' :: rest => some (.cJSON_NULL, rest)
    | 'f' :: 'a' :: 'l' :: 's' :: 'e' :: rest => some (.cJSON_False, rest)
    | 't' :: 'r' :: 'u' :: 'e' :: rest => some (.cJSON_True, rest)
    | '\"' :: rest => (parse_string rest .plain []).map fun r => (.cJSON_String r.1, r.2)
    | '[' :: rest =>
      match skip_whitespace rest with
      | ']' :: rest2 => some (.cJSON_Array [], rest2)
      | _ => (parse_items fuel rest).map fun r => (.cJSON_Array r.1, r.2)
    | '{' :: rest =>
      match skip_whitespace rest with
      | '}' :: rest2 => some (.cJSON_Object [], rest2)
      | _ => (parse_members fuel rest).map fun r => (.cJSON_Object r.1, r.2)
    | _ => parse_number input
/-- The items of an array after `[` or a comma, through the closing bracket. -/
def parse_items : Nat → List Char → Option (List cJSON × List Char)
  | 0, _ => none
  | fuel + 1, input =>
    match parse_value fuel (skip_whitespace input) with
    | none => none
    | some (v, rest) =>
      match skip_whitespace rest with
      | ',' :: rest2 => (parse_items fuel rest2).map fun r => (v :: r.1, r.2)
      | ']' :: rest2 => some ([v], rest2)
      | _ => none
/-- The members of an object after `{` or a comma, through the closing brace. -/
def parse_members : Nat → List Char → Option (List (String × cJSON) × List Char)
  | 0, _ => none
  | fuel + 1, input =>
    match skip_whitespace input with
    | '\"' :: rest =>
      match parse_string rest .plain [] with
      | none => none
      | some (k, rest2) =>
        match skip_whitespace rest2 with
        | ':' :: rest3 =>
          match parse_value fuel (skip_whitespace rest3) with
          | none => none
          | some (v, rest4) =>
            match skip_whitespace rest4 with
            | ',' :: rest5 => (parse_members fuel rest5).map fun r => ((k, v) :: r.1, r.2)
            | '}' :: rest5 => some ([(k, v)], rest5)
            | _ => none
        | _ => none
    | _ => none
end

/-- Reference `cJSON_Parse`: NULL for NULL and for text that is not a value. -/
def ref_cJSON_Parse (value : Option String) : Option cJSON :=
  match value with
  | none => none
  | some s => (parse_value (s.length + 1) (skip_whitespace s.data)).map Prod.fst

/-! ## hiredis and the redis server (external) -/

/-- Record `redisReply` of hiredis. -/
structure redisReply where
  type : Int
  integer : Int
  len : Nat
  str : Option String
deriving DecidableEq, Repr

/-- The static pointer `ctx` of redis_client.c: NULL, a context whose connection
is open, or a context on which `redisFree` has been called (the pointer itself
is then still not NULL). -/
inductive ctx_ptr where
  | NULL
  | live (c : redisContext)
  | freed (c : redisContext)
deriving DecidableEq, Repr

/-- The test `ctx == NULL`. -/
def ctx_ptr.isNull : ctx_ptr → Bool
  | .NULL => true
  | _ => false

/-- The record `ctx` points to, for a dereference `ctx->...`. -/
def ctx_ptr.context : ctx_ptr → Option redisContext
  | .NULL => none
  | .live c => some c
  | .freed c => some c

/-- State of the client and of the server it talks to: the static pointer `ctx`,
the key-value content of the server, and the commands the server has received,
oldest first. -/
structure World where
  ctx : ctx_ptr
  db : List (String × String)
  sent : List (List String)
deriving DecidableEq, Repr

/-- The store is Connected: `ctx` holds an open connection without error. -/
def World.connected (w : World) : Bool :=
  match w.ctx with
  | .live c => c.err == 0
  | _ => false

/-- The redis server on one command: `SET key value` (status reply `OK`),
`GET key` (string reply, or the nil reply without a string), `DEL key` (integer
reply 1 or 0); anything else is answered by an error reply. -/
def redis_server (db : List (String × String)) (argv : List String) :
    redisReply × List (String × String) :=
  match argv with
  | ["SET", key, value] =>
    ({ type := 5, integer := 0, len := 2, str := some "OK" },
      (key, value) :: db.filter fun e => e.1 != key)
  | ["GET", key] =>
    match db.lookup key with
    | some value => ({ type := 1, integer := 0, len := value.length, str := some value }, db)
    | none => ({ type := 4, integer := 0, len := 0, str := none }, db)
  | ["DEL", key] =>
    match db.lookup key with
    | some _ => ({ type := 3, integer := 1, len := 0, str := none }, db.filter fun e => e.1 != key)
    | none => ({ type := 3, integer := 0, len := 0, str := none }, db)
  | _ => ({ type := 6, integer := 0, len := 19, str := some "ERR unknown command" }, db)

/-- A C function of redis_client.c: it runs on a state and leaves a result and
the state at the point where it returned or stopped. -/
def Prog (α : Type) : Type :=
  World → Result α × World

/-- Sequencing: the second step runs only when the first returned. -/
def Prog.bind {α β : Type} (m : Prog α) (f : α → Prog β) : Prog β :=
  fun w =>
    match m w with
    | (.ret a, w1) => f a w1
    | (.abort, w1) => (.abort, w1)
    | (.segfault, w1) => (.segfault, w1)
    | (.double_free, w1) => (.double_free, w1)

instance : Monad Prog where
  pure a := fun w => (.ret a, w)
  bind := Prog.bind

/-- A step that does not touch the state. -/
def Prog.lift {α : Type} (r : Result α) : Prog α :=
  fun w => (r, w)

/-- Reads the static pointer `ctx`. -/
def get_ctx : Prog ctx_ptr :=
  fun w => (.ret w.ctx, w)

/-- Assigns the static pointer `ctx`. -/
def set_ctx (p : ctx_ptr) : Prog Unit :=
  fun w => (.ret (), { w with ctx := p })

/-- The pointer a hiredis connect call hands back. -/
def connect_result (c : Option redisContext) : ctx_ptr :=
  match c with
  | none => .NULL
  | some c => .live c

/-- Library call `redisFree(ctx)`: closes the connection; the variable `ctx` keeps
pointing to the released context. -/
def redisFree : Prog Unit :=
  fun w =>
    match w.ctx with
    | .live c => (.ret (), { w with ctx := .freed c })
    | _ => (.ret (), w)

/-- Library call `redisCommand(ctx, ...)` with the formatted arguments `argv`: on
an open connection without error the server runs the command and replies; NULL
otherwise. -/
def redisCommand (argv : List String) : Prog (Option redisReply) :=
  fun w =>
    match w.ctx with
    | .live c =>
      if c.err = 0 then
        let r := redis_server w.db argv
        (.ret (some r.1), { w with db := r.2, sent := w.sent ++ [argv] })
      else (.ret none, w)
    | _ => (.ret none, w)

/-- The first `n` bytes of a string, the `%b` argument of a command format. -/
def bytes (s : String) (n : Nat) : String :=
  String.mk (s.data.take n)

/-- The C library's `snprintf(buf, n, ...)` where `text` is the formatted text:
nothing is written for `n = 0`, otherwise the first `n - 1` characters. -/
def snprintf (buf : Option String) (n : Nat) (text : String) : Result (Option String) :=
  if n = 0 then .ret buf
  else (deref buf).bind fun _ => .ret (some (bytes text (n - 1)))

/-! ## redis_client.c -/

/-- Function `prv_connect` of redis_client.c. -/
def prv_connect (E : Env) (hostname : String) (port : Int) (is_unix : Bool) : Prog status_info := do
  Prog.lift (c_assert (← get_ctx).isNull)
  let status := E.status_info_new
  Prog.lift (c_assert status.isSome)
  if is_unix then
    set_ctx (connect_result (E.redisConnectUnixWithTimeout hostname))
  else
    set_ctx (connect_result (E.redisConnectWithTimeout hostname port))
  let ctx := (← get_ctx).context
  if ctx.isNone || ctx.any (fun c => c.err != 0) then
    if ctx.isSome then
      redisFree
      let s ← Prog.lift (deref status)
      let s := { s with code := E.REDIS_STATUS_SUCCESS }
      let c ← Prog.lift (deref ctx)
      let n ← Prog.lift (strlen (some c.errstr))
      let message ← Prog.lift
        (snprintf s.message n ("Connection error: " ++ c.errstr ++ "\n"))
      pure { s with message := message }
    else
      let s ← Prog.lift (deref status)
      let s := { s with code := E.REDIS_STATUS_SUCCESS }
      let c ← Prog.lift (deref ctx)
      let n ← Prog.lift (strlen (some c.errstr))
      let message ← Prog.lift
        (snprintf s.message n "Connection error: can't allocate redis context\n")
      pure { s with message := message }
  else
    let s ← Prog.lift (deref status)
    pure { s with code := E.REDIS_STATUS_SUCCESS, message := some "SUCCESS" }

/-- Function `prv_disconnect` of redis_client.c. -/
def prv_disconnect (E : Env) : Prog status_info := do
  Prog.lift (c_assert (!(← get_ctx).isNull))
  let info := E.status_info_new
  redisFree
  let s ← Prog.lift (deref info)
  pure { s with code := E.REDIS_STATUS_SUCCESS, message := some "Connection to redis closed" }

/-- Function `prv_store_job` of redis_client.c. -/
def prv_store_job (E : Env) (job : Option ecr_job) : Prog status_info := do
  Prog.lift (c_assert (!(← get_ctx).isNull))
  Prog.lift (c_assert job.isSome)
  let job_string ← Prog.lift (ecr_job_tostring E job)
  let info := E.status_info_new
  let j ← Prog.lift (deref job)
  let id ← Prog.lift (deref j.id)
  let id_len ← Prog.lift (strlen j.id)
  let text ← Prog.lift (deref job_string)
  let text_len ← Prog.lift (strlen job_string)
  let reply ← redisCommand
    ["SET", E.ECR_REDIS_JOB_PREFIX ++ ":" ++ bytes id id_len, bytes text text_len]
  Prog.lift (c_assert reply.isSome)
  let r ← Prog.lift (deref reply)
  let s ← Prog.lift (deref info)
  let s := { s with code := E.REDIS_STATUS_SUCCESS }
  if r.len ≠ 0 then
    pure { s with message := ecr_strdup r.str }
  else
    pure s

/-- Function `prv_retrieve_job` of redis_client.c. -/
def prv_retrieve_job (E : Env) (key : Option String) : Prog (Option ecr_job) := do
  Prog.lift (c_assert (!(← get_ctx).isNull))
  Prog.lift (c_assert key.isSome)
  let k ← Prog.lift (deref key)
  let reply ← redisCommand ["GET", E.ECR_REDIS_JOB_PREFIX ++ ":" ++ k]
  Prog.lift (c_assert reply.isSome)
  let r ← Prog.lift (deref reply)
  let job_json := E.cJSON_Parse r.str
  Prog.lift (c_assert job_json.isSome)
  let job_data_json := cJSON_GetObjectItem job_json "data"
  let content_item ← Prog.lift (deref (cJSON_GetObjectItemCaseSensitive job_data_json "content"))
  let is_command_item ←
    Prog.lift (deref (cJSON_GetObjectItemCaseSensitive job_data_json "is_command"))
  let lang_item ← Prog.lift (deref (cJSON_GetObjectItemCaseSensitive job_data_json "lang"))
  let job_data := ecr_job_data_new (ecr_strdup content_item.valuestring)
    (decide (is_command_item.valueint ≠ 0)) lang_item.valueint
  let id_item ← Prog.lift (deref (cJSON_GetObjectItemCaseSensitive job_json "id"))
  let description_item ←
    Prog.lift (deref (cJSON_GetObjectItemCaseSensitive job_json "description"))
  let job := ecr_job_new (ecr_strdup id_item.valuestring)
    (ecr_strdup description_item.valuestring) job_data
  Prog.lift (cJSON_Delete job_json false)
  pure (some job)

/-- Function `prv_remove_job` of redis_client.c. -/
def prv_remove_job (E : Env) (key : Option String) : Prog status_info := do
  Prog.lift (c_assert (!(← get_ctx).isNull))
  Prog.lift (c_assert key.isSome)
  let info := E.status_info_new
  Prog.lift (c_assert info.isSome)
  let k ← Prog.lift (deref key)
  let reply ← redisCommand ["DEL", E.ECR_REDIS_JOB_PREFIX ++ ":" ++ k]
  Prog.lift (c_assert reply.isSome)
  let r ← Prog.lift (deref reply)
  let s ← Prog.lift (deref info)
  let s := { s with code := E.REDIS_STATUS_SUCCESS }
  if r.len ≠ 0 then
    pure { s with message := ecr_strdup r.str }
  else
    pure s

/-! ## A reference environment -/

/-- A reference environment: the reference cJSON text functions, a server that
accepts TCP connections on 127.0.0.1:6379 and refuses every other connection, a
fresh status with code 0 and an empty message buffer, and sample values of the
two constants (their definitions are not among the sources). -/
def refEnv : Env where
  ECR_REDIS_JOB_PREFIX := "ecr_job"
  REDIS_STATUS_SUCCESS := 0
  status_info_new := some { code := 0, message := some "" }
  cJSON_Parse := ref_cJSON_Parse
  cJSON_Print := ref_cJSON_Print
  redisConnectWithTimeout := fun hostname port =>
    if hostname = "127.0.0.1" ∧ port = 6379 then some { err := 0, errstr := "" }
    else some { err := 1, errstr := "Connection refused" }
  redisConnectUnixWithTimeout := fun _ =>
    some { err := 1, errstr := "No such file or directory" }

/-- The state before any call: `ctx` is NULL (a static pointer), the server is empty. -/
def world0 : World :=
  { ctx := .NULL, db := [], sent := [] }

/-- The job of the example: `("job-1", "demo", "echo hi", command, lang 0)`. -/
def job1 : ecr_job :=
  ecr_job_new (some "job-1") (some "demo") (ecr_job_data_new (some "echo hi") true 0)

/-- A state in which the store is Connected and the server is empty. -/
def world1 : World :=
  { ctx := .live { err := 0, errstr := "" }, db := [], sent := [] }

/-- A Connected state whose server holds the record of `job1`. -/
def world2 : World :=
  { ctx := .live { err := 0, errstr := "" },
    db := [("ecr_job:job-1", "\x7b\n\t\"id\":\t\"job-1\",\n\t\"description\":\t\"demo\",\n\t\"data\":\t\x7b\n\t\t\"content\":\t\"echo hi\",\n\t\t\"is_command\":\t1,\n\t\t\"lang\":\t0\n\t\x7d\n\x7d")],
    sent := [] }

/-- The state after a successful connect followed by a disconnect: the
connection is closed and `ctx` still points to the released context. -/
def world3 : World :=
  { ctx := .freed { err := 0, errstr := "" }, db := [], sent := [] }

/-- The state after a refused connect: `ctx` points to the released context. -/
def world4 : World :=
  { ctx := .freed { err := 1, errstr := "Connection refused" }, db := [], sent := [] }

/-- The compact text the specification gives for `job1`. -/
def job1_compact_text : String :=
  "\x7b\"id\":\"job-1\",\"description\":\"demo\",\"data\":\x7b\"content\":\"echo hi\",\"is_command\":1,\"lang\":0\x7d\x7d"

/-- The text the formatted printer gives for `job1`. -/
def job1_text : String :=
  "\x7b\n\t\"id\":\t\"job-1\",\n\t\"description\":\t\"demo\",\n\t\"data\":\t\x7b\n\t\t\"content\":\t\"echo hi\",\n\t\t\"is_command\":\t1,\n\t\t\"lang\":\t0\n\t\x7d\n\x7d"

/-! ## Theorems -/

theorem Prog.bind_eq_bind {α β : Type} (m : Prog α) (f : α → Prog β) : (m >>= f) = Prog.bind m f :=
  rfl

theorem Prog.pure_eq_ret {α : Type} (a : α) : (pure a : Prog α) = fun w => (.ret a, w) :=
  rfl

theorem Prog.bind_apply {α β : Type} (m : Prog α) (f : α → Prog β) (w : World) :
    Prog.bind m f w =
      match m w with
      | (.ret a, w1) => f a w1
      | (.abort, w1) => (.abort, w1)
      | (.segfault, w1) => (.segfault, w1)
      | (.double_free, w1) => (.double_free, w1) :=
  rfl

theorem Result.seq_eq_bind {α β : Type} (r : Result α) (f : α → Result β) : (r >>= f) = r.bind f :=
  rfl

theorem Result.unit_eq_ret {α : Type} (a : α) : (pure a : Result α) = .ret a :=
  rfl

/-- The node `ecr_job_tojson` builds for a job whose strings are not NULL. -/
theorem ecr_job_tojson_eq (job : ecr_job) (id description : String)
    (hid : job.id = some id) (hdesc : job.description = some description) :
    ∃ data, ecr_job_data_tojson job.data = some data ∧
      ecr_job_tojson (some job) = .ret (some (.cJSON_Object
        [("id", .cJSON_String id), ("description", .cJSON_String description), ("data", data)])) := by
  obtain ⟨jid, jdesc, ⟨content, is_command, lang⟩⟩ := job
  simp only at hid hdesc
  subst hid hdesc
  cases content <;> exact ⟨_, rfl, rfl⟩

/-- C1, the failing input. For the job `("job-1", "demo", "echo hi", true, lang 0)`
`ecr_job_tostring` returns the text of the job, and `ecr_job_parse` on that text
does not return the job: having built it, the function deletes `job_json` and
then `job_data_json`, a child of the tree it has just deleted. -/
theorem ecr_job_parse_tostring_double_free :
    ecr_job_tostring refEnv (some job1) = .ret (some job1_text) ∧
    (ecr_job_tostring refEnv (some job1)).bind (ecr_job_parse refEnv) = .double_free := by
  constructor <;> rfl

/-- C2, as stated, fails: on the text `not json` the function stops on
`assert(job_json)`, and on the object `{}` it dereferences the NULL item of `id`;
in neither case is an error value returned. -/
theorem ecr_job_parse_malformed_counterexample :
    ecr_job_parse refEnv (some "not json") = .abort ∧
    ecr_job_parse refEnv (some "{}") = .segfault :=
  ⟨rfl, rfl⟩

/-- C2, amended. For every text the library's parser rejects, `ecr_job_parse`
stops on its assertion `assert(job_json)`: it aborts, and returns neither an
error value nor a job. -/
theorem ecr_job_parse_rejected_aborts (E : Env) (job_str : String)
    (hrej : E.cJSON_Parse (some job_str) = none) :
    ecr_job_parse E (some job_str) = .abort := by
  unfold ecr_job_parse
  rw [hrej]
  rfl

/-- C2, amended, at the text `not json` with the reference library. -/
theorem ecr_job_parse_rejected_aborts_witness :
    ecr_job_parse refEnv (some "not json") = .abort :=
  ecr_job_parse_rejected_aborts refEnv "not json" rfl

/-- C8, as stated, fails on its example: the text of `job1` is not the compact
text, because `cJSON_Print` is the library's formatted printer. -/
theorem ecr_job_tostring_counterexample :
    ecr_job_tostring refEnv (some job1) ≠ .ret (some job1_compact_text) := by
  decide

/-- C8, amended. For every job whose `id` and `description` are not NULL,
`ecr_job_tojson` is an object with exactly the three members `id`, `description`,
`data`, in this order, the first two the strings of the job and the third the
node of `ecr_job_data_tojson`; `ecr_job_tostring` is `cJSON_Print` of that object;
and with the formatted printer the text of the example job is the object
printed one member a line, indented by tabs. -/
theorem ecr_job_tojson_tostring_format (E : Env) (job : ecr_job) (id description : String)
    (hid : job.id = some id) (hdesc : job.description = some description) :
    ∃ data, ecr_job_data_tojson job.data = some data ∧
      ecr_job_tojson (some job) = .ret (some (.cJSON_Object
        [("id", .cJSON_String id), ("description", .cJSON_String description), ("data", data)])) ∧
      ecr_job_tostring E (some job) = .ret (some (E.cJSON_Print (.cJSON_Object
        [("id", .cJSON_String id), ("description", .cJSON_String description), ("data", data)]))) ∧
      ecr_job_tostring refEnv (some job1) = .ret (some job1_text) := by
  obtain ⟨data, hdata, hjson⟩ := ecr_job_tojson_eq job id description hid hdesc
  refine ⟨data, hdata, hjson, ?_, by decide⟩
  unfold ecr_job_tostring
  rw [hjson]
  rfl

/-- C8, amended, at the example job with the reference library. -/
theorem ecr_job_tojson_tostring_format_witness :
    ecr_job_tojson (some job1) = .ret (some (.cJSON_Object
      [("id", .cJSON_String "job-1"), ("description", .cJSON_String "demo"),
        ("data", .cJSON_Object [("content", .cJSON_String "echo hi"),
          ("is_command", .cJSON_Number 1), ("lang", .cJSON_Number 0)])])) ∧
    ecr_job_tostring refEnv (some job1) = .ret (some job1_text) := by
  obtain ⟨data, hdata, hjson, -, htext⟩ :=
    ecr_job_tojson_tostring_format refEnv job1 "job-1" "demo" rfl rfl
  have hd : data = .cJSON_Object [("content", .cJSON_String "echo hi"),
      ("is_command", .cJSON_Number 1), ("lang", .cJSON_Number 0)] := by
    have h2 : ecr_job_data_tojson job1.data = some (.cJSON_Object
      [("content", .cJSON_String "echo hi"),
        ("is_command", .cJSON_Number 1), ("lang", .cJSON_Number 0)]) := rfl
    rw [h2] at hdata
    injection hdata with h3
    exact h3.symm
  subst hd
  exact ⟨hjson, htext⟩

/-- A Connected state holds an open context without error. -/
theorem connected_iff (w : World) :
    w.connected = true ↔ ∃ c, w.ctx = .live c ∧ c.err = 0 := by
  obtain ⟨ctx, db, sent⟩ := w
  cases ctx <;> simp [World.connected]

/-- C3, the failing input: a TCP connect that is refused (the library hands back
a context with `err = 1`) returns a status whose code is `REDIS_STATUS_SUCCESS`,
the code of a successful connect, with the message cut to `Connection error:`. -/
theorem prv_connect_refused_reports_success :
    prv_connect refEnv "10.0.0.1" 6379 false world0 =
      (.ret { code := refEnv.REDIS_STATUS_SUCCESS, message := some "Connection error:" },
        { world0 with ctx := .freed { err := 1, errstr := "Connection refused" } }) ∧
    prv_connect refEnv "127.0.0.1" 6379 false world0 =
      (.ret { code := refEnv.REDIS_STATUS_SUCCESS, message := some "SUCCESS" },
        { world0 with ctx := .live { err := 0, errstr := "" } }) := by
  constructor <;> rfl

/-- C9. Wrong-state calls fail loudly: with an empty connection handle each of
store, retrieve, remove and disconnect stops on its first assertion, with the
state (handle, server content, commands sent) unchanged; in the Connected state
connect stops on its first assertion, again with the state unchanged, so no
second connection is opened. None of them returns a status. -/
theorem wrong_state_calls_abort (E : Env) (job : Option ecr_job) (key : Option String)
    (hostname : String) (port : Int) (is_unix : Bool)
    (w : World) (hd : w.ctx = .NULL) (w2 : World) (hc : w2.connected = true) :
    prv_store_job E job w = (.abort, w) ∧
    prv_retrieve_job E key w = (.abort, w) ∧
    prv_remove_job E key w = (.abort, w) ∧
    prv_disconnect E w = (.abort, w) ∧
    prv_connect E hostname port is_unix w2 = (.abort, w2) := by
  obtain ⟨c, hlive, -⟩ := (connected_iff w2).1 hc
  simp [prv_store_job, prv_retrieve_job, prv_remove_job, prv_disconnect, prv_connect,
    Prog.bind_eq_bind, Prog.bind_apply, Prog.lift, get_ctx, c_assert, ctx_ptr.isNull, hd, hlive]

/-- C9, at the initial state (handle empty) and at a Connected state. -/
theorem wrong_state_calls_abort_witness :
    prv_store_job refEnv (some job1) world0 = (.abort, world0) ∧
    prv_retrieve_job refEnv (some "job-1") world0 = (.abort, world0) ∧
    prv_remove_job refEnv (some "job-1") world0 = (.abort, world0) ∧
    prv_disconnect refEnv world0 = (.abort, world0) ∧
    prv_connect refEnv "127.0.0.1" 6379 false world1 = (.abort, world1) :=
  wrong_state_calls_abort refEnv (some job1) (some "job-1") "127.0.0.1" 6379 false
    world0 rfl world1 rfl

/-- On a Connected state `redisCommand` hands the command to the server. -/
theorem redisCommand_connected (argv : List String) (w : World) (hc : w.connected = true) :
    redisCommand argv w =
      (.ret (some (redis_server w.db argv).1),
        { w with db := (redis_server w.db argv).2, sent := w.sent ++ [argv] }) := by
  obtain ⟨c, hlive, herr⟩ := (connected_iff w).1 hc
  simp [redisCommand, hlive, herr]

/-- C4, as stated, fails: retrieving an id that is absent from an empty store
stops on `assert(job_json)`; nothing is returned to the caller. -/
theorem prv_retrieve_job_missing_counterexample :
    (prv_retrieve_job refEnv (some "missing-id") world1).1 = .abort := by
  rfl

/-- C4, amended. For every id whose namespaced key is absent from the store, in
the Connected state and with a parser that rejects the NULL text of the nil
reply, `prv_retrieve_job` sends the GET command and stops on its assertion
`assert(job_json)`: it aborts and returns no job, default or otherwise. -/
theorem prv_retrieve_job_absent_aborts (E : Env) (key : String) (w : World)
    (hc : w.connected = true)
    (habsent : w.db.lookup (E.ECR_REDIS_JOB_PREFIX ++ ":" ++ key) = none)
    (hnull : E.cJSON_Parse none = none) :
    prv_retrieve_job E (some key) w =
      (.abort, { w with sent := w.sent ++ [["GET", E.ECR_REDIS_JOB_PREFIX ++ ":" ++ key]] }) := by
  obtain ⟨c, hlive, -⟩ := (connected_iff w).1 hc
  simp [prv_retrieve_job, Prog.bind_eq_bind, Prog.bind_apply, Prog.lift, get_ctx, c_assert,
    ctx_ptr.isNull, deref, hlive, redisCommand_connected _ w hc, redis_server, habsent, hnull]

/-- C4, amended, at the id `missing-id` on an empty store. -/
theorem prv_retrieve_job_absent_aborts_witness :
    prv_retrieve_job refEnv (some "missing-id") world1 =
      (.abort, { world1 with sent := [["GET", "ecr_job:missing-id"]] }) :=
  prv_retrieve_job_absent_aborts refEnv "missing-id" world1 rfl rfl rfl

/-- C7, as stated, fails: the server answers DEL with the integer 1 when the
record exists and 0 when it does not, and `prv_remove_job` returns the same
status in both cases. -/
theorem prv_remove_job_counterexample :
    (redis_server world2.db ["DEL", "ecr_job:job-1"]).1.integer = 1 ∧
    (redis_server world1.db ["DEL", "ecr_job:job-1"]).1.integer = 0 ∧
    (prv_remove_job refEnv (some "job-1") world2).1 =
      (prv_remove_job refEnv (some "job-1") world1).1 := by
  decide

/-- C7, amended. In the Connected state `prv_remove_job` returns, for every id,
the fresh status with its code set to `REDIS_STATUS_SUCCESS` and its message
untouched, whether the record existed or not: the integer of the DEL reply is
not reported. -/
theorem prv_remove_job_status (E : Env) (key : String) (w : World) (s : status_info)
    (hc : w.connected = true) (hs : E.status_info_new = some s) :
    (prv_remove_job E (some key) w).1 = .ret { s with code := E.REDIS_STATUS_SUCCESS } := by
  obtain ⟨c, hlive, -⟩ := (connected_iff w).1 hc
  have hcmd := redisCommand_connected ["DEL", E.ECR_REDIS_JOB_PREFIX ++ ":" ++ key] w hc
  cases hl : w.db.lookup (E.ECR_REDIS_JOB_PREFIX ++ ":" ++ key) <;>
    simp [prv_remove_job, Prog.bind_eq_bind, Prog.bind_apply, Prog.lift, get_ctx, c_assert,
      ctx_ptr.isNull, deref, hlive, hcmd, redis_server, hs, hl, Prog.pure_eq_ret]

/-- C7, amended, at a store that holds the record and at one that does not. -/
theorem prv_remove_job_status_witness :
    (prv_remove_job refEnv (some "job-1") world2).1 = .ret { code := 0, message := some "" } ∧
    (prv_remove_job refEnv (some "job-1") world1).1 = .ret { code := 0, message := some "" } :=
  ⟨prv_remove_job_status refEnv "job-1" world2 _ rfl rfl,
    prv_remove_job_status refEnv "job-1" world1 _ rfl rfl⟩

/-- The text of a job is `cJSON_Print` of its node; both exist for every job. -/
theorem ecr_job_tostring_eq (E : Env) (job : ecr_job) :
    ∃ node, ecr_job_tojson (some job) = .ret (some node) ∧
      ecr_job_tostring E (some job) = .ret (some (E.cJSON_Print node)) := by
  obtain ⟨id, description, ⟨content, is_command, lang⟩⟩ := job
  cases id <;> cases description <;> cases content <;> exact ⟨_, rfl, rfl⟩

/-- All of a string's bytes are the string. -/
theorem bytes_length (s : String) : bytes s s.length = s := by
  show String.mk (s.data.take s.data.length) = s
  rw [List.take_length]

/-- C10, the failing input. On the stored record of the example job
`prv_retrieve_job` returns the job, while `ecr_job_parse` on the same text does
not return: it releases the node of `data` a second time. -/
theorem prv_retrieve_job_returns_parse_double_free :
    (redis_server world2.db ["GET", "ecr_job:job-1"]).1.str = some job1_text ∧
    (prv_retrieve_job refEnv (some "job-1") world2).1 = .ret (some job1) ∧
    ecr_job_parse refEnv (some job1_text) = .double_free := by
  refine ⟨rfl, rfl, rfl⟩

set_option maxHeartbeats 2000000 in
/-- The outcomes of retrieve and parse on the same stored text: where
`prv_retrieve_job` aborts or faults, `ecr_job_parse` does the same; where
`prv_retrieve_job` returns a job, `ecr_job_parse` ends in the repeated release. -/
theorem prv_retrieve_job_parse_outcomes (E : Env) (id s : String) (w : World)
    (hc : w.connected = true)
    (hget : (redis_server w.db ["GET", E.ECR_REDIS_JOB_PREFIX ++ ":" ++ id]).1.str = some s) :
    ecr_job_parse E (some s) =
      match (prv_retrieve_job E (some id) w).1 with
      | .ret _ => .double_free
      | r => r := by
  obtain ⟨c, hlive, -⟩ := (connected_iff w).1 hc
  have hcmd := redisCommand_connected ["GET", E.ECR_REDIS_JOB_PREFIX ++ ":" ++ id] w hc
  cases hp : E.cJSON_Parse (some s) with
  | none =>
    simp [prv_retrieve_job, ecr_job_parse, Prog.bind_eq_bind, Prog.bind_apply, Prog.lift, get_ctx,
      c_assert, ctx_ptr.isNull, deref, hlive, hcmd, hget, hp, Result.seq_eq_bind, Result.bind]
  | some json =>
    cases h0 : cJSON_GetObjectItem (some json) "data" with
    | none =>
      have hnone : ∀ name, cJSON_GetObjectItemCaseSensitive none name = none := fun _ => rfl
      cases h1 : cJSON_GetObjectItemCaseSensitive (some json) "id" <;>
      cases h2 : cJSON_GetObjectItemCaseSensitive (some json) "description" <;>
      simp [prv_retrieve_job, ecr_job_parse, Prog.bind_eq_bind, Prog.bind_apply, Prog.lift,
        get_ctx, c_assert, ctx_ptr.isNull, deref, hlive, hcmd, hget, hp, Result.seq_eq_bind,
        Result.bind, h0, h1, h2, hnone]
    | some data =>
      cases h1 : cJSON_GetObjectItemCaseSensitive (some json) "id" <;>
      cases h2 : cJSON_GetObjectItemCaseSensitive (some json) "description" <;>
      cases h3 : cJSON_GetObjectItemCaseSensitive (some data) "content" <;>
      cases h4 : cJSON_GetObjectItemCaseSensitive (some data) "is_command" <;>
      cases h5 : cJSON_GetObjectItemCaseSensitive (some data) "lang" <;>
      simp [prv_retrieve_job, ecr_job_parse, Prog.bind_eq_bind, Prog.bind_apply, Prog.lift,
        get_ctx, c_assert, ctx_ptr.isNull, deref, hlive, hcmd, hget, hp, Result.seq_eq_bind,
        Result.bind, Result.unit_eq_ret, Prog.pure_eq_ret, ecr_strdup, cJSON_Delete,
        h0, h1, h2, h3, h4, h5]

/-- The stored record of the example job: retrieve returns, parse does not. -/
theorem prv_retrieve_job_parse_outcomes_witness :
    ecr_job_parse refEnv (some job1_text) = .double_free ∧
    (prv_retrieve_job refEnv (some "job-1") world2).1 = .ret (some job1) :=
  ⟨prv_retrieve_job_parse_outcomes refEnv "job-1" job1_text world2 rfl rfl, rfl⟩

/-- The state `prv_retrieve_job` leaves in the Connected state: the GET command
on the namespaced key has been sent, nothing else has changed. -/
theorem prv_retrieve_job_state (E : Env) (id : String) (w : World) (hc : w.connected = true) :
    (prv_retrieve_job E (some id) w).2 =
      { w with sent := w.sent ++ [["GET", E.ECR_REDIS_JOB_PREFIX ++ ":" ++ id]] } := by
  obtain ⟨c, hlive, -⟩ := (connected_iff w).1 hc
  have hcmd := redisCommand_connected ["GET", E.ECR_REDIS_JOB_PREFIX ++ ":" ++ id] w hc
  have hdb : (redis_server w.db ["GET", E.ECR_REDIS_JOB_PREFIX ++ ":" ++ id]).2 = w.db := by
    cases hl : w.db.lookup (E.ECR_REDIS_JOB_PREFIX ++ ":" ++ id) <;> simp [redis_server, hl]
  generalize hr : (redis_server w.db ["GET", E.ECR_REDIS_JOB_PREFIX ++ ":" ++ id]).1 = r at hcmd
  cases hp : E.cJSON_Parse r.str with
  | none =>
    simp [prv_retrieve_job, Prog.bind_eq_bind, Prog.bind_apply, Prog.lift, get_ctx,
      c_assert, ctx_ptr.isNull, deref, hlive, hcmd, hp, hdb]
  | some json =>
    cases h1 : cJSON_GetObjectItemCaseSensitive (some json) "id" <;>
    cases h2 : cJSON_GetObjectItemCaseSensitive (some json) "description" <;>
    cases h3 : cJSON_GetObjectItemCaseSensitive (cJSON_GetObjectItem (some json) "data") "content" <;>
    cases h4 : cJSON_GetObjectItemCaseSensitive (cJSON_GetObjectItem (some json) "data")
      "is_command" <;>
    cases h5 : cJSON_GetObjectItemCaseSensitive (cJSON_GetObjectItem (some json) "data") "lang" <;>
    simp [prv_retrieve_job, Prog.bind_eq_bind, Prog.bind_apply, Prog.lift, get_ctx,
      c_assert, ctx_ptr.isNull, deref, hlive, hcmd, hp, hdb, Prog.pure_eq_ret, cJSON_Delete, h1, h2, h3, h4, h5]

/-- C5. Key namespacing on store: in the Connected state `prv_store_job` sends
exactly one command, `SET` with the key `ECR_REDIS_JOB_PREFIX`, `:`, the whole
`job.id` and the value `ecr_job_tostring(job)`; a raw GET of that key on the
server afterwards yields exactly that text; and `prv_retrieve_job` and
`prv_remove_job` send `GET` and `DEL` with the same key for the same id. -/
theorem prv_store_job_key (E : Env) (job : ecr_job) (id : String) (w w2 : World)
    (hc : w.connected = true) (hid : job.id = some id)
    (hc2 : w2.connected = true) (hs : E.status_info_new.isSome = true) :
    ∃ text, ecr_job_tostring E (some job) = .ret (some text) ∧
      (prv_store_job E (some job) w).2.sent =
        w.sent ++ [["SET", E.ECR_REDIS_JOB_PREFIX ++ ":" ++ id, text]] ∧
      (redis_server (prv_store_job E (some job) w).2.db
        ["GET", E.ECR_REDIS_JOB_PREFIX ++ ":" ++ id]).1.str = some text ∧
      (prv_retrieve_job E (some id) w2).2.sent =
        w2.sent ++ [["GET", E.ECR_REDIS_JOB_PREFIX ++ ":" ++ id]] ∧
      (prv_remove_job E (some id) w2).2.sent =
        w2.sent ++ [["DEL", E.ECR_REDIS_JOB_PREFIX ++ ":" ++ id]] := by
  obtain ⟨node, -, htext⟩ := ecr_job_tostring_eq E job
  obtain ⟨c, hlive, -⟩ := (connected_iff w).1 hc
  obtain ⟨c2, hlive2, -⟩ := (connected_iff w2).1 hc2
  obtain ⟨s, hs⟩ := Option.isSome_iff_exists.1 hs
  have hset := redisCommand_connected
    ["SET", E.ECR_REDIS_JOB_PREFIX ++ ":" ++ id, E.cJSON_Print node] w hc
  have hdel := redisCommand_connected ["DEL", E.ECR_REDIS_JOB_PREFIX ++ ":" ++ id] w2 hc2
  refine ⟨E.cJSON_Print node, htext, ?_, ?_, ?_, ?_⟩
  · simp [prv_store_job, Prog.bind_eq_bind, Prog.bind_apply, Prog.lift, get_ctx, c_assert,
      ctx_ptr.isNull, deref, strlen, Result.bind, hlive, htext, hid, bytes_length, hset,
      redis_server, hs, Prog.pure_eq_ret]
  · simp [prv_store_job, Prog.bind_eq_bind, Prog.bind_apply, Prog.lift, get_ctx, c_assert,
      ctx_ptr.isNull, deref, strlen, Result.bind, hlive, htext, hid, bytes_length, hset,
      redis_server, hs, Prog.pure_eq_ret]
  · rw [prv_retrieve_job_state E id w2 hc2]
  · cases hl : w2.db.lookup (E.ECR_REDIS_JOB_PREFIX ++ ":" ++ id) <;>
      simp [prv_remove_job, Prog.bind_eq_bind, Prog.bind_apply, Prog.lift, get_ctx, c_assert,
        ctx_ptr.isNull, deref, hlive2, hdel, redis_server, hs, hl, Prog.pure_eq_ret]

/-- C5, at the example job on an empty store. -/
theorem prv_store_job_key_witness :
    ∃ text, ecr_job_tostring refEnv (some job1) = .ret (some text) ∧
      (prv_store_job refEnv (some job1) world1).2.sent = [["SET", "ecr_job:job-1", text]] ∧
      (redis_server (prv_store_job refEnv (some job1) world1).2.db
        ["GET", "ecr_job:job-1"]).1.str = some text ∧
      (prv_retrieve_job refEnv (some "job-1") world2).2.sent = [["GET", "ecr_job:job-1"]] ∧
      (prv_remove_job refEnv (some "job-1") world2).2.sent = [["DEL", "ecr_job:job-1"]] :=
  prv_store_job_key refEnv job1 "job-1" world1 world2 rfl rfl rfl rfl

/-- C6, the failing inputs. After a successful connect and a disconnect the
store is not Connected and yet the handle `ctx` is not empty, so the next
connect stops on `assert(!ctx)`; the same holds after a connect that was
refused. -/
theorem handle_not_emptied :
    prv_connect refEnv "127.0.0.1" 6379 false world0 =
      (.ret { code := 0, message := some "SUCCESS" }, world1) ∧
    prv_disconnect refEnv world1 =
      (.ret { code := 0, message := some "Connection to redis closed" }, world3) ∧
    world3.connected = false ∧ world3.ctx.isNull = false ∧
    prv_connect refEnv "127.0.0.1" 6379 false world3 = (.abort, world3) ∧
    (prv_connect refEnv "10.0.0.1" 6379 false world0).2 = world4 ∧
    world4.connected = false ∧ world4.ctx.isNull = false ∧
    prv_connect refEnv "127.0.0.1" 6379 false world4 = (.abort, world4) := by
  decide

/-- Every status `prv_connect` returns carries the code `REDIS_STATUS_SUCCESS`,
whether or not the connection was established. -/
theorem prv_connect_code (E : Env) (hostname : String) (port : Int) (is_unix : Bool)
    (w w1 : World) (st : status_info)
    (h : prv_connect E hostname port is_unix w = (.ret st, w1)) :
    st.code = E.REDIS_STATUS_SUCCESS := by
  obtain ⟨ctx, db, sent⟩ := w
  unfold prv_connect at h
  rcases ctx with _ | c0 | c0
  · rcases hs : E.status_info_new with _ | ⟨code0, msg⟩
    · simp [Prog.bind_eq_bind, Prog.bind_apply, Prog.lift, get_ctx, c_assert, ctx_ptr.isNull, hs] at h
    · cases is_unix
      · generalize E.redisConnectWithTimeout hostname port = conn at h
        rcases conn with _ | c1
        · simp [Prog.bind_eq_bind, Prog.bind_apply, Prog.lift, get_ctx, set_ctx, c_assert, deref,
            connect_result, ctx_ptr.isNull, ctx_ptr.context, hs] at h
        · by_cases he : c1.err = 0 <;> by_cases hl : c1.errstr.length = 0 <;> cases msg <;>
            simp [Prog.bind_eq_bind, Prog.bind_apply, Prog.lift, get_ctx, set_ctx, Prog.pure_eq_ret,
              c_assert, deref, redisFree, connect_result, strlen, snprintf, Result.bind,
              ctx_ptr.isNull, ctx_ptr.context, hs, he, hl] at h <;>
            (obtain ⟨rfl, -⟩ := h; rfl)
      · generalize E.redisConnectUnixWithTimeout hostname = conn at h
        rcases conn with _ | c1
        · simp [Prog.bind_eq_bind, Prog.bind_apply, Prog.lift, get_ctx, set_ctx, c_assert, deref,
            connect_result, ctx_ptr.isNull, ctx_ptr.context, hs] at h
        · by_cases he : c1.err = 0 <;> by_cases hl : c1.errstr.length = 0 <;> cases msg <;>
            simp [Prog.bind_eq_bind, Prog.bind_apply, Prog.lift, get_ctx, set_ctx, Prog.pure_eq_ret,
              c_assert, deref, redisFree, connect_result, strlen, snprintf, Result.bind,
              ctx_ptr.isNull, ctx_ptr.context, hs, he, hl] at h <;>
            (obtain ⟨rfl, -⟩ := h; rfl)
  · simp [Prog.bind_eq_bind, Prog.bind_apply, Prog.lift, get_ctx, c_assert, ctx_ptr.isNull] at h
  · simp [Prog.bind_eq_bind, Prog.bind_apply, Prog.lift, get_ctx, c_assert, ctx_ptr.isNull] at h

/-- The refused connect of the reference environment returns the success code. -/
theorem prv_connect_code_witness :
    (prv_connect refEnv "10.0.0.1" 6379 false world0).1 =
      .ret { code := 0, message := some "Connection error:" } ∧
    (0 : Int) = refEnv.REDIS_STATUS_SUCCESS :=
  ⟨rfl, prv_connect_code refEnv "10.0.0.1" 6379 false world0 world4
    { code := 0, message := some "Connection error:" } rfl⟩

/-- An object without a member `id` makes `ecr_job_parse` dereference NULL: the
item of `id` is used without a check. -/
theorem ecr_job_parse_missing_id_faults (E : Env) (job_str : String) (json : cJSON)
    (hparse : E.cJSON_Parse (some job_str) = some json)
    (hid : cJSON_GetObjectItemCaseSensitive (some json) "id" = none) :
    ecr_job_parse E (some job_str) = .segfault := by
  simp [ecr_job_parse, c_assert, deref, hparse, hid, Result.seq_eq_bind, Result.bind]

/-- The empty object has no member `id`. -/
theorem ecr_job_parse_missing_id_faults_witness :
    ecr_job_parse refEnv (some "{}") = .segfault :=
  ecr_job_parse_missing_id_faults refEnv "{}" (.cJSON_Object []) rfl rfl

/-- After `prv_disconnect` in the Connected state the store is not Connected, the
handle `ctx` is still not NULL, and every further `prv_connect` stops on
`assert(!ctx)`. -/
theorem prv_disconnect_keeps_handle (E : Env) (w : World) (hostname : String) (port : Int)
    (is_unix : Bool) (hc : w.connected = true) :
    (prv_disconnect E w).2.connected = false ∧
    (prv_disconnect E w).2.ctx.isNull = false ∧
    (prv_connect E hostname port is_unix (prv_disconnect E w).2).1 = .abort := by
  obtain ⟨c, hlive, -⟩ := (connected_iff w).1 hc
  cases hs : E.status_info_new <;>
    simp [prv_disconnect, prv_connect, Prog.bind_eq_bind, Prog.bind_apply, Prog.lift, get_ctx,
      c_assert, ctx_ptr.isNull, redisFree, deref, hlive, hs, World.connected, Prog.pure_eq_ret]

/-- The disconnect of the reference environment after a successful connect. -/
theorem prv_disconnect_keeps_handle_witness :
    (prv_disconnect refEnv world1).2.connected = false ∧
    (prv_disconnect refEnv world1).2.ctx.isNull = false ∧
    (prv_connect refEnv "127.0.0.1" 6379 false (prv_disconnect refEnv world1).2).1 = .abort :=
  prv_disconnect_keeps_handle refEnv world1 "127.0.0.1" 6379 false rfl

/-- On no input does `ecr_job_parse` return: it stops on an assertion, on a NULL
item, or, once the job is built, on the second release of the node of `data`. -/
theorem ecr_job_parse_never_returns (E : Env) (job_str : Option String) (job : Option ecr_job) :
    ecr_job_parse E job_str ≠ .ret job := by
  have hnone : ∀ name, cJSON_GetObjectItemCaseSensitive none name = none := fun _ => rfl
  cases job_str with
  | none => simp [ecr_job_parse, c_assert, Result.seq_eq_bind, Result.bind]
  | some s =>
    cases hp : E.cJSON_Parse (some s) with
    | none => simp [ecr_job_parse, c_assert, hp, Result.seq_eq_bind, Result.bind]
    | some json =>
      cases h1 : cJSON_GetObjectItemCaseSensitive (some json) "id" <;>
      cases h2 : cJSON_GetObjectItemCaseSensitive (some json) "description" <;>
      cases h0 : cJSON_GetObjectItem (some json) "data" <;>
      simp [ecr_job_parse, c_assert, deref, hp, Result.seq_eq_bind, Result.bind, h0, h1, h2, hnone]
      rename_i data
      cases h3 : cJSON_GetObjectItemCaseSensitive (some data) "content" <;>
      cases h4 : cJSON_GetObjectItemCaseSensitive (some data) "is_command" <;>
      cases h5 : cJSON_GetObjectItemCaseSensitive (some data) "lang" <;>
      simp [cJSON_Delete, Result.unit_eq_ret]

end ECR
